import Mathlib

/-!
Verification of the NexusAgenticManager client state layer.

This file shallowly embeds the client-side application state store of the
repository (src/desktop/src/store/nexusStore.ts) together with the
store-driven handlers of its views
(src/desktop/src/components/projects/ProjectsView.tsx,
src/desktop/src/components/chat/TelegramView.tsx,
src/desktop/src/components/notifications/NotificationSystem.tsx).

Embedding conventions:
* TypeScript string-union types ("info"|"success"|..., roles, statuses,
  agent names) are embedded as String.
* JavaScript Date values are embedded as Nat (milliseconds since epoch).
* Nondeterministic runtime inputs (crypto.randomUUID(), new Date()) are
  passed to the embedded actions as explicit arguments.
* An awaited network call is embedded by passing its outcome as an
  explicit argument (Option/Bool); a handler whose every network failure
  is caught in the source is embedded as a total function.
* Array.prototype.slice(0, 50) is List.take 50; [x, ...l] is x :: l;
  Array.prototype.filter/map are List.filter/List.map.
-/

namespace Nexus

/-- A notification entry (nexusStore.ts, interface Notification).
The optional `action` of the source carries a UI callback (`onClick`);
only its data part (the label) is state, so only the label is embedded. -/
structure Notification where
  id : String
  type : String
  title : String
  body : String
  agent : Option String := none
  timestamp : Nat
  read : Bool
  actionLabel : Option String := none
  deriving DecidableEq, Repr

/-- A chat message (nexusStore.ts, interface Message).
`isStreaming?: boolean` is an optional field, embedded as Option Bool. -/
structure Message where
  id : String
  role : String
  content : String
  agent : String
  timestamp : Nat
  isStreaming : Option Bool := none
  deriving DecidableEq, Repr

/-- A project entity as the view handlers address it
(ProjectsView.tsx reads the backend field `_id`; the embedding names
that identifier field `mid`). -/
structure Project where
  mid : String
  name : String
  description : String := ""
  status : String := ""
  github_repo : String := ""
  deriving DecidableEq, Repr

/-- A task entity as the view handlers address it (ProjectsView.tsx
compares `t.id` against the string `taskId` of the drag handlers). -/
structure Task where
  id : String
  project_id : String := ""
  title : String := ""
  status : String
  priority : String := "medium"
  description : String := ""
  deriving DecidableEq, Repr

/-- The slice of the store state (nexusStore.ts, interface NexusState)
that the embedded actions read or write.  Presentation-only fields
(currentView, showNotifPanel, commandBarOpen, agentStatuses, settings,
backendUrl, connectivity booleans) are omitted: no embedded action
depends on them. -/
structure NexusState where
  messages : List Message
  sessionId : Option String
  isLoading : Bool
  notifications : List Notification
  unreadCount : Nat
  projects : List Project
  tasks : List Task
  activeProjectId : Option String
  deriving DecidableEq, Repr

/-- The initial store state (nexusStore.ts lines 114-124). -/
def initialState : NexusState where
  messages := []
  sessionId := none
  isLoading := false
  notifications := []
  unreadCount := 0
  projects := []
  tasks := []
  activeProjectId := none

/-- Input of addMessage: Omit<Message, "id" | "timestamp">. -/
structure MessageInput where
  role : String
  content : String
  agent : String
  isStreaming : Option Bool := none
  deriving DecidableEq, Repr

/-- addMessage (nexusStore.ts lines 146-148): appends the message with a
fresh id and the current timestamp. -/
def addMessage (s : NexusState) (freshId : String) (now : Nat) (m : MessageInput) : NexusState :=
  { s with messages := s.messages ++
      [{ id := freshId, role := m.role, content := m.content, agent := m.agent,
         timestamp := now, isStreaming := m.isStreaming }] }

/-- updateLastMessage (nexusStore.ts lines 149-153): if the message list
is non-empty, replaces its last element in place with the given content
and isStreaming := false; otherwise leaves the list as it is. -/
def updateLastMessage (s : NexusState) (content : String) : NexusState :=
  { s with messages :=
      match s.messages.getLast? with
      | none => s.messages
      | some last =>
          s.messages.dropLast ++ [{ last with content := content, isStreaming := some false }] }

/-- setLoading (nexusStore.ts line 154). -/
def setLoading (s : NexusState) (v : Bool) : NexusState := { s with isLoading := v }

/-- setSessionId (nexusStore.ts line 156). -/
def setSessionId (s : NexusState) (id : String) : NexusState := { s with sessionId := some id }

/-- clearChat (nexusStore.ts line 157). -/
def clearChat (s : NexusState) : NexusState := { s with messages := [], sessionId := none }

/-- Input of pushNotification: Omit<Notification, "id" | "timestamp" | "read">. -/
structure NotifInput where
  type : String
  title : String
  body : String
  agent : Option String := none
  actionLabel : Option String := none
  deriving DecidableEq, Repr

/-- The notification record pushNotification builds (nexusStore.ts line
160): fresh id, current timestamp, read := false. -/
def mkNotification (freshId : String) (now : Nat) (n : NotifInput) : Notification :=
  { id := freshId, type := n.type, title := n.title, body := n.body,
    agent := n.agent, timestamp := now, read := false, actionLabel := n.actionLabel }

/-- pushNotification (nexusStore.ts lines 159-169): inserts the new entry
at the head, truncates to 50 via slice(0, 50), and increments the unread
counter.  The native desktop notification of lines 166-168 is a side
effect outside the store state and is not part of the state transition. -/
def pushNotification (s : NexusState) (freshId : String) (now : Nat) (n : NotifInput) : NexusState :=
  { s with
      notifications := (mkNotification freshId now n :: s.notifications).take 50,
      unreadCount := s.unreadCount + 1 }

/-- markAllRead (nexusStore.ts lines 170-173). -/
def markAllRead (s : NexusState) : NexusState :=
  { s with
      notifications := s.notifications.map (fun n => { n with read := true }),
      unreadCount := 0 }

/-- dismissNotification (nexusStore.ts lines 174-177): removes the entry
by id and recomputes the unread counter from the previous list. -/
def dismissNotification (s : NexusState) (id : String) : NexusState :=
  { s with
      notifications := s.notifications.filter (fun n => n.id != id),
      unreadCount := (s.notifications.filter (fun n => !n.read && n.id != id)).length }

/-- setProjects (nexusStore.ts line 180). -/
def setProjects (s : NexusState) (p : List Project) : NexusState := { s with projects := p }

/-- setTasks (nexusStore.ts line 181). -/
def setTasks (s : NexusState) (t : List Task) : NexusState := { s with tasks := t }

/-- setActiveProject (nexusStore.ts line 182). -/
def setActiveProject (s : NexusState) (id : Option String) : NexusState :=
  { s with activeProjectId := id }

/-- Number of unread entries actually present in the notification list
(the quantity the NotificationPanel header displays,
NotificationSystem.tsx line 144). -/
def unreadInList (s : NexusState) : Nat :=
  (s.notifications.filter (fun n => !n.read)).length

/-! ### Toast projection (NotificationSystem.tsx) -/

/-- ToastContainer's ephemeral projection (NotificationSystem.tsx line 83):
`notifications.filter((n) => !n.read).slice(0, 4)`. -/
def toastProjection (s : NexusState) : List Notification :=
  (s.notifications.filter (fun n => !n.read)).take 4

/-- The toast self-dismiss delay in milliseconds (NotificationSystem.tsx
line 20, `setTimeout(..., 5000)`). -/
def toastTimeoutMs : Nat := 5000

/-- The exit-animation grace period in milliseconds before the dismiss
handler runs (NotificationSystem.tsx line 20, `setTimeout(onDismiss, 250)`). -/
def toastExitGraceMs : Nat := 250

/-- The store effect of a toast's timeout handler: after the 5000 ms
timeout and the 250 ms grace period, the Toast calls `onDismiss`, which
ToastContainer binds to `() => dismissNotification(n.id)`
(NotificationSystem.tsx lines 20 and 93). -/
def toastAutoDismiss (s : NexusState) (id : String) : NexusState :=
  dismissNotification s id

/-! ### Task board handlers (ProjectsView.tsx) -/

/-- A run of handleStatusChange (ProjectsView.tsx lines 299-306), split
into the two snapshots of the local task list an observer can see:
`duringAwait` is the list while `await updateTaskStatus(taskId, newStatus)`
is in flight (no setTasks precedes the await in the source), and `after`
is the list once the handler finished, with `remoteOk` the outcome of the
awaited remote call (the catch block of line 305 is empty). -/
structure StatusChangeRun where
  duringAwait : List Task
  after : List Task
  deriving DecidableEq, Repr

/-- handleStatusChange (ProjectsView.tsx lines 299-306); drag-and-drop
(line 757) and the status chips (line 931) both resolve to this handler. -/
def handleStatusChange (tasks : List Task) (taskId newStatus : String)
    (remoteOk : Bool) : StatusChangeRun :=
  { duringAwait := tasks,
    after :=
      if remoteOk then
        tasks.map (fun t => if t.id == taskId then { t with status := newStatus } else t)
      else tasks }

/-- The disabled guard of the DELETE PROJECT button (ProjectsView.tsx line
1235): `disabled={deleteConfirmationName !== activeProject.name}`. -/
def deleteButtonDisabled (deleteConfirmationName activeProjectName : String) : Bool :=
  deleteConfirmationName != activeProjectName

/-- Whether handleDeleteProject (ProjectsView.tsx lines 147-201) reaches
the remote `deleteProject(activeProjectId)` call.  `debugStatus` is the
outcome of the debug fetch of lines 164-176 (`none` = the fetch threw,
which is ignored; `some 404` aborts; any other status proceeds); the
fetch happens only after the exact-name validation of line 154. -/
def remoteDeleteAttempted (projects : List Project) (activeProjectId : Option String)
    (deleteConfirmationName : String) (debugStatus : Option Nat) : Bool :=
  match activeProjectId with
  | none => false
  | some pid =>
    match projects.find? (fun p => p.mid == pid) with
    | none => false
    | some projectToDelete =>
      if deleteConfirmationName != projectToDelete.name then false
      else
        match debugStatus with
        | some 404 => false
        | _ => true

/-- loadProjects (ProjectsView.tsx lines 91-110): `result = none` embeds
the catch branch (the error notification needs a fresh id and time);
`result = some data` embeds the success branch, which stores the list and
auto-selects the first project's `_id` when the list is non-empty and no
project is active (`!activeProjectId`, i.e. a null or empty id). -/
def loadProjectsApply (s : NexusState) (freshId : String) (now : Nat)
    (result : Option (List Project)) : NexusState :=
  match result with
  | none =>
      pushNotification s freshId now
        { type := "error", title := "Projects Error", body := "Could not load projects" }
  | some data =>
      let s1 := setProjects s data
      match data with
      | [] => s1
      | p :: _ =>
          if s.activeProjectId = none ∨ s.activeProjectId = some "" then
            setActiveProject s1 (some p.mid)
          else s1

/-! ### Chat send (ChatView's ChatInput, TelegramView.tsx lines 495-533) -/

/-- The response of the chat API collaborator (`sendChat`). -/
structure ChatResp where
  response : String
  agent : String
  session_id : String
  deriving DecidableEq, Repr

/-- The fixed offline-notice string the failure path writes
(ChatInput.submit, catch branch). -/
def offlineNotice : String :=
  "⚠️ Backend offline. Run: `uvicorn api.main:app --reload` in /backend"

/-- JavaScript String.prototype.trim (whitespace stripped from both
ends), embedded over the character list. -/
def jsTrim (s : String) : String :=
  ⟨((s.data.dropWhile Char.isWhitespace).reverse.dropWhile Char.isWhitespace).reverse⟩

/-- ChatInput.submit (TelegramView.tsx lines 500-533): trims the input,
returns unchanged when the trimmed text is empty or the store is busy;
otherwise appends the user message, appends the streaming placeholder,
sets busy, and resolves the awaited `sendChat` outcome: on success adopts
the server session id when none (or an empty one) was held, replaces the
placeholder via updateLastMessage, and pushes an agent notification when
the responding agent is not NEXUS; on failure replaces the placeholder
with the offline notice.  Both branches clear busy in the `finally`
block; both branches are caught in the source, so the embedding is a
total function (the handler never throws to the UI).  `uid1/t1` and
`uid2/t2` are the fresh ids/timestamps of the two appended messages and
`nid/tn` those of the possible notification. -/
def submit (s : NexusState) (raw : String) (uid1 uid2 : String) (t1 t2 : Nat)
    (nid : String) (tn : Nat) (outcome : Option ChatResp) : NexusState :=
  let msg := jsTrim raw
  if msg = "" ∨ s.isLoading then s
  else
    let s1 := addMessage s uid1 t1 { role := "user", content := msg, agent := "NEXUS" }
    let s2 := addMessage s1 uid2 t2
      { role := "assistant", content := "", agent := "NEXUS", isStreaming := some true }
    let s3 := setLoading s2 true
    match outcome with
    | some data =>
        let s4 :=
          if s.sessionId = none ∨ s.sessionId = some "" then setSessionId s3 data.session_id
          else s3
        let s5 := updateLastMessage s4 data.response
        let s6 :=
          if data.agent != "NEXUS" then
            pushNotification s5 nid tn
              { type := "agent",
                title := data.agent ++ " responded",
                body := data.response.take 80 ++ (if 80 < data.response.length then "…" else ""),
                agent := some data.agent }
          else s5
        setLoading s6 false
    | none =>
        setLoading (updateLastMessage s3 offlineNotice) false

/-! ### Telegram bot polling (TelegramView.tsx lines 59-89) -/

/-- One update of a getUpdates batch; the optional fields mirror the
optional-chaining reads `u.message?.from?.first_name`, `u.message?.text`
and `u.message?.date` of the source. -/
structure Update where
  update_id : Nat
  fromName : Option String := none
  text : Option String := none
  date : Option Nat := none
  deriving DecidableEq, Repr

/-- A message of the Telegram view's local log (interface TelegramMessage). -/
structure TgMessage where
  id : Nat
  fromName : String
  text : String
  timestamp : Nat
  isBot : Bool
  deriving DecidableEq, Repr

/-- The map step of the poll tick (TelegramView.tsx lines 70-78), with
the source's `|| "User"`, `|| ""` and `|| 0` defaults. -/
def updateToMsg (u : Update) : TgMessage :=
  { id := u.update_id,
    fromName := u.fromName.getD "User",
    text := u.text.getD "",
    timestamp := (u.date.getD 0) * 1000,
    isBot := false }

/-- The cursor advancement a poll batch performs: inside the map over
`data.result`, each update executes
`offset = Math.max(offset, u.update_id + 1)` (TelegramView.tsx line 71). -/
def advanceOffset (offset : Nat) (batch : List Update) : Nat :=
  batch.foldl (fun o u => max o (u.update_id + 1)) offset

/-- The maximum update id of a batch. -/
def maxUpdateId (batch : List Update) : Nat :=
  batch.foldl (fun a u => max a u.update_id) 0

/-- The poll-local state: the closure variable `offset` and the
component's message log. -/
structure PollState where
  offset : Nat
  messages : List TgMessage
  deriving DecidableEq, Repr

/-- One tick of the polling interval (TelegramView.tsx lines 64-88):
`none` embeds a failed fetch (silently caught); a batch is processed only
when `data.ok && data.result.length > 0`; the mapped messages are
filtered by non-empty text before being appended to the log. -/
def pollTick (st : PollState) (result : Option (List Update)) : PollState :=
  match result with
  | none => st
  | some batch =>
      if batch.isEmpty then st
      else
        { offset := advanceOffset st.offset batch,
          messages := st.messages ++ (batch.map updateToMsg).filter (fun m => m.text != "") }

/-- A run of poll ticks over successive batch outcomes. -/
def pollRun (st : PollState) (results : List (Option (List Update))) : PollState :=
  results.foldl pollTick st

/-- The getUpdates cursor contract (spec §6: `getUpdates(offset)` returns
updates from the given offset onwards): starting at offset `o`, every
batch of the sequence contains only updates whose id is at least the
offset current when that batch was fetched. -/
def ValidBatches (o : Nat) : List (List Update) → Prop
  | [] => True
  | b :: bs => (∀ u ∈ b, o ≤ u.update_id) ∧ ValidBatches (advanceOffset o b) bs

/-! ### Notification-queue operation sequences -/

/-- The three queue operations of the store. -/
inductive NotifOp
  | push (freshId : String) (now : Nat) (n : NotifInput)
  | markAll
  | dismiss (id : String)
  deriving DecidableEq, Repr

/-- Apply one queue operation to the store. -/
def applyNotifOp (s : NexusState) : NotifOp → NexusState
  | .push fid now n => pushNotification s fid now n
  | .markAll => markAllRead s
  | .dismiss id => dismissNotification s id

/-- Run a sequence of queue operations. -/
def runNotifOps (s : NexusState) (ops : List NotifOp) : NexusState :=
  ops.foldl applyNotifOp s

/-- A sequence of pushes given as (fresh id, timestamp, input) triples. -/
def pushMany (s : NexusState) (inputs : List (String × Nat × NotifInput)) : NexusState :=
  inputs.foldl (fun st p => pushNotification st p.1 p.2.1 p.2.2) s

/-- True when the given operation, applied in the given state, cannot
evict a queue entry (a push needs fewer than 50 entries present). -/
def opNoEvict (s : NexusState) : NotifOp → Bool
  | .push _ _ _ => s.notifications.length < 50
  | _ => true

/-- True when every push of the sequence happens while the queue holds
fewer than 50 entries, so that the slice(0, 50) truncation never evicts
an entry. -/
def noEvict (s : NexusState) : List NotifOp → Bool
  | [] => true
  | op :: ops => opNoEvict s op && noEvict (applyNotifOp s op) ops

/-- A sample notification input. -/
def exInput : NotifInput := { type := "info", title := "Build", body := "done" }

/-- 51 consecutive pushes with distinct fresh ids "0" … "50". -/
def overflowOps : List NotifOp :=
  (List.range 51).map (fun i => .push (toString i) i exInput)

/-- The store state after 51 pushes from the initial state: the queue was
truncated to 50 entries while the unread counter kept counting. -/
def overflowState : NexusState := runNotifOps initialState overflowOps

/-! ### Concrete fixtures used by witnesses and counterexamples -/

/-- A single task in status "todo". -/
def exTask : Task := { id := "1", status := "todo" }

/-- A state with one unread notification "a" (projected as a toast). -/
def toastState : NexusState := pushNotification initialState "a" 0 exInput

/-- A project whose name carries a trailing space. -/
def exApollo : Project := { mid := "p1", name := "Apollo " }

/-- A poll batch delivering update ids [5, 7, 6]. -/
def exBatch : List Update :=
  [{ update_id := 5, text := some "a" },
   { update_id := 7, text := some "b" },
   { update_id := 6, text := some "c" }]

/-- A later poll batch delivering update id 9. -/
def exBatch2 : List Update := [{ update_id := 9, text := some "d" }]

/-- A state holding a single finished chat message. -/
def exMsgState : NexusState :=
  addMessage initialState "m1" 5 { role := "user", content := "hi", agent := "NEXUS" }

/-! ## Helper lemmas -/

/-- A single push keeps the queue within the 50-entry cap. -/
theorem pushNotification_length_le (s : NexusState) (fid : String) (now : Nat) (n : NotifInput) :
    (pushNotification s fid now n).notifications.length ≤ 50 := by
  simp only [pushNotification, List.length_take]
  omega

/-- Any push sequence starting within the cap stays within the cap. -/
theorem pushMany_length_le : ∀ (inputs : List (String × Nat × NotifInput)) (s : NexusState),
    s.notifications.length ≤ 50 → (pushMany s inputs).notifications.length ≤ 50
  | [], _, h => h
  | p :: ps, s, _ =>
      pushMany_length_le ps (pushNotification s p.1 p.2.1 p.2.2)
        (pushNotification_length_le s p.1 p.2.1 p.2.2)

/-- After any dismiss, the unread counter agrees with the remaining list. -/
theorem dismiss_sync (s : NexusState) (id : String) :
    (dismissNotification s id).unreadCount = unreadInList (dismissNotification s id) := by
  simp [dismissNotification, unreadInList, List.filter_filter, Bool.and_comm]

/-! ## C3 -/

/-- C3: starting from any state holding at most 50 notifications, no
sequence of pushNotification calls ever brings the queue above 50
entries; each push inserts the freshly built entry (read = false) at the
head and retains exactly the first 50 of the new-entry-first list, so
only the oldest surplus entries are evicted and the retained entries are
the most recent ones in insertion order. -/
theorem c3_queue_cap (s : NexusState) (h : s.notifications.length ≤ 50)
    (inputs : List (String × Nat × NotifInput)) :
    (pushMany s inputs).notifications.length ≤ 50 ∧
    ∀ fid now n,
      (pushNotification s fid now n).notifications
          = (mkNotification fid now n :: s.notifications).take 50 ∧
      (pushNotification s fid now n).notifications.head? = some (mkNotification fid now n) ∧
      (mkNotification fid now n).read = false :=
  ⟨pushMany_length_le inputs s h, fun _ _ _ => ⟨rfl, rfl, rfl⟩⟩

/-- C3 witness: the cap invariant and the push shape at a concrete state
and input. -/
theorem c3_queue_cap_witness :
    (pushMany initialState [("a", 1, exInput)]).notifications.length ≤ 50 ∧
    ∀ fid now n,
      (pushNotification initialState fid now n).notifications
          = (mkNotification fid now n :: initialState.notifications).take 50 ∧
      (pushNotification initialState fid now n).notifications.head?
          = some (mkNotification fid now n) ∧
      (mkNotification fid now n).read = false :=
  c3_queue_cap initialState (by decide) [("a", 1, exInput)]

/-! ## C10 -/

/-- C10: updateLastMessage is total and safe on an empty message list —
the store state is unchanged and no error occurs; on a non-empty list
only the last message is replaced (content set, isStreaming set to
false) and all earlier messages are unchanged. -/
theorem c10_updateLastMessage_safe (s : NexusState) (c : String) :
    (s.messages = [] → updateLastMessage s c = s) ∧
    ∀ ms m, s.messages = ms ++ [m] →
      updateLastMessage s c
        = { s with messages := ms ++ [{ m with content := c, isStreaming := some false }] } := by
  constructor
  · intro h
    obtain ⟨ms, sid, il, nt, uc, pj, tk, ap⟩ := s
    cases h
    rfl
  · intro ms m h
    simp [updateLastMessage, h, List.getLast?_concat, List.dropLast_concat]

/-- C10 witness: the empty-list no-op at the initial state and the
in-place replacement at a one-message state. -/
theorem c10_updateLastMessage_safe_witness :
    updateLastMessage initialState "x" = initialState ∧
    updateLastMessage exMsgState "x"
      = { exMsgState with messages :=
            [] ++ [{ id := "m1", role := "user", content := "x", agent := "NEXUS",
                     timestamp := 5, isStreaming := some false }] } :=
  ⟨(c10_updateLastMessage_safe initialState "x").1 rfl,
   (c10_updateLastMessage_safe exMsgState "x").2 []
     { id := "m1", role := "user", content := "hi", agent := "NEXUS", timestamp := 5 }
     (by decide)⟩

/-! ## C8 -/

/-- C8: when the project list loads while no project is active
(activeProjectId null), a non-empty returned list auto-selects the first
project's id as active (and stores the list), and an empty returned list
leaves activeProjectId null. -/
theorem c8_loadProjects_autoselect (s : NexusState) (fid : String) (now : Nat)
    (h : s.activeProjectId = none) :
    (∀ p rest,
        (loadProjectsApply s fid now (some (p :: rest))).activeProjectId = some p.mid ∧
        (loadProjectsApply s fid now (some (p :: rest))).projects = p :: rest) ∧
    (loadProjectsApply s fid now (some [])).activeProjectId = none ∧
    (loadProjectsApply s fid now (some [])).projects = [] := by
  refine ⟨fun p rest => ?_, ?_, ?_⟩ <;>
    simp [loadProjectsApply, setProjects, setActiveProject, h]

/-- C8 witness: loading [exApollo] from the initial state selects "p1";
loading [] leaves no active project. -/
theorem c8_loadProjects_autoselect_witness :
    (∀ p rest,
        (loadProjectsApply initialState "f" 0 (some (p :: rest))).activeProjectId = some p.mid ∧
        (loadProjectsApply initialState "f" 0 (some (p :: rest))).projects = p :: rest) ∧
    (loadProjectsApply initialState "f" 0 (some [])).activeProjectId = none ∧
    (loadProjectsApply initialState "f" 0 (some [])).projects = [] :=
  c8_loadProjects_autoselect initialState "f" 0 rfl

/-! ## C6 -/

/-- C6: the remote deleteProject call is reached only when the typed
confirmation string equals the active project's name character for
character (no trimming): whenever the attempt flag is true the names
match exactly, any mismatch is rejected before the remote delete is
attempted, and with a trailing-space difference ("Apollo" typed for a
project named "Apollo ") the DELETE PROJECT button is disabled. -/
theorem c6_delete_exact_name :
    (∀ (projects : List Project) (apid : Option String) (confirm : String) (dbg : Option Nat),
        remoteDeleteAttempted projects apid confirm dbg = true →
          ∃ pid p, apid = some pid ∧
            projects.find? (fun q => q.mid == pid) = some p ∧ confirm = p.name) ∧
    (∀ (projects : List Project) (pid : String) (p : Project) (confirm : String)
        (dbg : Option Nat),
        projects.find? (fun q => q.mid == pid) = some p → confirm ≠ p.name →
          remoteDeleteAttempted projects (some pid) confirm dbg = false) ∧
    deleteButtonDisabled "Apollo" "Apollo " = true := by
  refine ⟨?_, ?_, by decide⟩
  · intro projects apid confirm dbg h
    unfold remoteDeleteAttempted at h
    split at h
    · simp at h
    next pid =>
      split at h
      · simp at h
      next p hfind =>
        split at h
        · simp at h
        next hname =>
          refine ⟨pid, p, rfl, hfind, ?_⟩
          simpa using hname
  · intro projects pid p confirm dbg hfind hne
    simp [remoteDeleteAttempted, hfind, hne]

/-- C6 witness: typing "Apollo" for the project named "Apollo " leaves
the button disabled and does not reach the remote delete; typing the
exact name "Apollo " reaches it and the matched name is exact. -/
theorem c6_delete_exact_name_witness :
    (∃ pid p, (some "p1" : Option String) = some pid ∧
        [exApollo].find? (fun q => q.mid == pid) = some p ∧ "Apollo " = p.name) ∧
    remoteDeleteAttempted [exApollo] (some "p1") "Apollo" none = false ∧
    deleteButtonDisabled "Apollo" "Apollo " = true :=
  ⟨c6_delete_exact_name.1 [exApollo] (some "p1") "Apollo " none (by decide),
   c6_delete_exact_name.2.1 [exApollo] "p1" exApollo "Apollo" none (by decide) (by decide),
   c6_delete_exact_name.2.2⟩

/-! ## C1 -/

/-- C1 counterexample: for the single task "1" in status "todo" and a
failing remote update, the status-change handler shows status "todo"
both while the remote call is in flight and after the failure — the
local status is neither mutated before the network response nor left at
the new status on failure, refuting the optimistic-update claim at this
input. -/
theorem c1_counterexample :
    ¬ ((handleStatusChange [exTask] "1" "done" false).duringAwait.map Task.status = ["done"] ∨
       (handleStatusChange [exTask] "1" "done" false).after.map Task.status = ["done"]) := by
  decide

/-- C1 (amended): handleStatusChange is remote-first, not optimistic:
the local task list is unchanged while the awaited remote update is in
flight; on remote success the task with the given id gets the new status
and every other position is unchanged; on remote failure the local list
is left exactly as it was (the error is silently swallowed). -/
theorem c1_status_change_remote_first (tasks : List Task) (taskId newStatus : String) :
    (∀ ok, (handleStatusChange tasks taskId newStatus ok).duringAwait = tasks) ∧
    (handleStatusChange tasks taskId newStatus true).after
        = tasks.map (fun t => if t.id == taskId then { t with status := newStatus } else t) ∧
    (∀ i : Nat, (handleStatusChange tasks taskId newStatus true).after[i]?
        = tasks[i]?.map (fun t => if t.id == taskId then { t with status := newStatus } else t)) ∧
    (handleStatusChange tasks taskId newStatus false).after = tasks := by
  refine ⟨fun _ => rfl, rfl, fun i => ?_, rfl⟩
  simp [handleStatusChange]

/-! ## C2 -/

/-- C2 counterexample: with the single unread notification "a" projected
as a toast, running the toast's timeout handler (the 5000 ms
self-dismiss followed by the 250 ms grace period, which invokes
dismissNotification) changes the underlying notification queue — the
queue does not stay unchanged. -/
theorem c2_counterexample :
    (toastProjection toastState).map Notification.id = ["a"] ∧
    (toastAutoDismiss toastState "a").notifications ≠ toastState.notifications := by
  decide

/-- C2 (amended): when a projected toast self-dismisses after the
5-second timeout plus the 250 ms exit grace period, its timeout handler
performs dismissNotification on the store, so the notification entry is
removed from the underlying queue itself (not merely from the ephemeral
toast view) and the unread counter is recomputed from the remaining
entries. -/
theorem c2_toast_dismiss_removes_from_queue (s : NexusState) (id : String) :
    toastAutoDismiss s id = dismissNotification s id ∧
    (toastAutoDismiss s id).notifications = s.notifications.filter (fun n => n.id != id) ∧
    (toastAutoDismiss s id).notifications.all (fun n => n.id != id) = true ∧
    toastTimeoutMs = 5000 ∧ toastExitGraceMs = 250 := by
  refine ⟨rfl, rfl, ?_, rfl, rfl⟩
  simp [toastAutoDismiss, dismissNotification, List.all_eq_true]

/-! ## C7 -/

/-- C7 counterexample: in the store state reached from the initial state
by 51 pushes, no queued notification has id "zzz", yet dismissing "zzz"
changes the store — the unread counter is recomputed from 51 down to 50
(the push at the cap had evicted an unread entry without decrementing
it), so dismissing a nonexistent id is not a no-op on every reachable
state. -/
theorem c7_counterexample :
    overflowState.notifications.all (fun n => n.id != "zzz") = true ∧
    overflowState.unreadCount = 51 ∧
    (dismissNotification overflowState "zzz").unreadCount = 50 ∧
    dismissNotification overflowState "zzz" ≠ overflowState := by
  decide

/-- C7 (amended): dismissing the same id twice is idempotent — the
second call leaves the notification list and the unread counter
unchanged and raises no error; every dismiss recomputes the unread
counter as the count of remaining unread entries rather than merely
decrementing it; and dismissing a nonexistent id always leaves the
notification list unchanged, being a complete no-op exactly when the
unread counter already agrees with the list (the agreement can fail on
states where a push at the 50-entry cap evicted an unread entry). -/
theorem c7_dismiss_idempotent (s : NexusState) (id : String) :
    dismissNotification (dismissNotification s id) id = dismissNotification s id ∧
    (dismissNotification s id).unreadCount = unreadInList (dismissNotification s id) ∧
    (s.notifications.all (fun n => n.id != id) = true →
      (dismissNotification s id).notifications = s.notifications ∧
      (s.unreadCount = unreadInList s → dismissNotification s id = s)) := by
  refine ⟨?_, dismiss_sync s id, fun hall => ⟨?_, fun hsync => ?_⟩⟩
  · obtain ⟨ms, sid, il, nt, uc, pj, tk, ap⟩ := s
    simp [dismissNotification, List.filter_filter, Bool.and_comm, Bool.and_assoc,
      Bool.and_self]
  · simpa [dismissNotification, List.filter_eq_self] using fun n hn => by
      simpa using List.all_eq_true.mp hall n hn
  · obtain ⟨ms, sid, il, nt, uc, pj, tk, ap⟩ := s
    have hk : ∀ n ∈ nt, (n.id != id) = true := fun n hn => by
      simpa using List.all_eq_true.mp hall n hn
    have hfil : nt.filter (fun n => n.id != id) = nt := List.filter_eq_self.mpr hk
    have hfil2 : nt.filter (fun n => !n.read && n.id != id) = nt.filter (fun n => !n.read) := by
      apply List.filter_congr
      intro n hn
      simp [hk n hn]
    simp_all [dismissNotification, unreadInList]

/-- C7 witness: the idempotence, the recomputation property, and the
nonexistent-id no-op at a concrete synchronized state. -/
theorem c7_dismiss_idempotent_witness :
    (dismissNotification (dismissNotification toastState "a") "a"
        = dismissNotification toastState "a" ∧
     (dismissNotification toastState "a").unreadCount
        = unreadInList (dismissNotification toastState "a")) ∧
    dismissNotification toastState "zzz" = toastState :=
  ⟨⟨(c7_dismiss_idempotent toastState "a").1, (c7_dismiss_idempotent toastState "a").2.1⟩,
   ((c7_dismiss_idempotent toastState "zzz").2.2 (by decide)).2 (by decide)⟩

/-! ## C9 -/

/-- A push adds at most one unread entry to the list (the truncation can
only lose entries). -/
theorem unreadInList_push_le (s : NexusState) (fid : String) (now : Nat) (n : NotifInput) :
    unreadInList (pushNotification s fid now n) ≤ unreadInList s + 1 := by
  have hsub := ((List.take_sublist 50
      (mkNotification fid now n :: s.notifications)).filter (fun n => !n.read)).length_le
  simpa [unreadInList, pushNotification, List.filter_cons, mkNotification] using hsub

/-- markAllRead leaves no unread entry in the list. -/
theorem unreadInList_markAllRead (s : NexusState) : unreadInList (markAllRead s) = 0 := by
  simp [unreadInList, markAllRead, List.filter_map, Function.comp]

/-- The unread counter bounds the number of unread entries in the list,
along every operation sequence. -/
theorem runNotifOps_ge : ∀ (ops : List NotifOp) (s : NexusState),
    unreadInList s ≤ s.unreadCount →
    unreadInList (runNotifOps s ops) ≤ (runNotifOps s ops).unreadCount
  | [], _, h => h
  | op :: ops, s, h => by
      have hstep : unreadInList (applyNotifOp s op) ≤ (applyNotifOp s op).unreadCount := by
        cases op with
        | push fid now n =>
            have hle := unreadInList_push_le s fid now n
            have hc : (pushNotification s fid now n).unreadCount = s.unreadCount + 1 := rfl
            simp only [applyNotifOp, hc]
            omega
        | markAll =>
            show unreadInList (markAllRead s) ≤ (markAllRead s).unreadCount
            rw [unreadInList_markAllRead]
            exact Nat.zero_le _
        | dismiss id => exact le_of_eq (dismiss_sync s id).symm
      exact runNotifOps_ge ops (applyNotifOp s op) hstep

/-- As long as no push happens at the cap, the unread counter stays
exactly equal to the number of unread entries in the list. -/
theorem runNotifOps_sync : ∀ (ops : List NotifOp) (s : NexusState),
    s.unreadCount = unreadInList s → noEvict s ops = true →
    (runNotifOps s ops).unreadCount = unreadInList (runNotifOps s ops)
  | [], _, h, _ => h
  | op :: ops, s, h, hne => by
      rw [noEvict, Bool.and_eq_true] at hne
      obtain ⟨hguard, hrest⟩ := hne
      have hstep : (applyNotifOp s op).unreadCount = unreadInList (applyNotifOp s op) := by
        cases op with
        | push fid now n =>
            have hlt : s.notifications.length < 50 := by simpa [opNoEvict] using hguard
            have htake : (mkNotification fid now n :: s.notifications).take 50
                = mkNotification fid now n :: s.notifications :=
              List.take_of_length_le (by simp; omega)
            show (pushNotification s fid now n).unreadCount
                = unreadInList (pushNotification s fid now n)
            simp only [pushNotification, unreadInList]
            rw [htake]
            simp [mkNotification, h, unreadInList, List.filter_cons]
        | markAll =>
            show (markAllRead s).unreadCount = unreadInList (markAllRead s)
            rw [unreadInList_markAllRead]
            rfl
        | dismiss id => exact dismiss_sync s id
      exact runNotifOps_sync ops (applyNotifOp s op) hstep hrest

/-- C9 counterexample: the state reached from the initial state by the
51 pushes of overflowOps has unreadCount 51 but only 50 unread entries
in the notification list (the push at the cap evicted an unread entry
while still incrementing the counter), so the invariant fails on a
reachable state. -/
theorem c9_counterexample :
    overflowState = runNotifOps initialState overflowOps ∧
    overflowState.unreadCount = 51 ∧
    unreadInList overflowState = 50 ∧
    overflowState.unreadCount ≠ unreadInList overflowState :=
  ⟨rfl, by decide, by decide, by decide⟩

/-- C9 (amended): in every store state reachable from the initial state
via pushNotification, markAllRead and dismissNotification, the
unreadCount field is an upper bound on the number of unread entries in
the notification list; it is exactly that number as long as every push
of the sequence happened with fewer than 50 notifications present (a
push at the 50-entry cap can evict an unread entry while still
incrementing the counter, making the bound strict). -/
theorem c9_unread_invariant (ops : List NotifOp) :
    unreadInList (runNotifOps initialState ops) ≤ (runNotifOps initialState ops).unreadCount ∧
    (noEvict initialState ops = true →
      (runNotifOps initialState ops).unreadCount
        = unreadInList (runNotifOps initialState ops)) :=
  ⟨runNotifOps_ge ops initialState (by decide),
   fun h => runNotifOps_sync ops initialState (by decide) h⟩

/-- C9 witness: the invariant at a concrete three-operation sequence. -/
theorem c9_unread_invariant_witness :
    unreadInList (runNotifOps initialState [.push "a" 0 exInput, .dismiss "a", .markAll])
        ≤ (runNotifOps initialState [.push "a" 0 exInput, .dismiss "a", .markAll]).unreadCount ∧
    (runNotifOps initialState [.push "a" 0 exInput, .dismiss "a", .markAll]).unreadCount
        = unreadInList (runNotifOps initialState [.push "a" 0 exInput, .dismiss "a", .markAll]) :=
  ⟨(c9_unread_invariant [.push "a" 0 exInput, .dismiss "a", .markAll]).1,
   (c9_unread_invariant [.push "a" 0 exInput, .dismiss "a", .markAll]).2 (by decide)⟩

/-! ## C4 -/

/-- On a successful send, the message list grows by exactly the user
message and the finalized assistant message (the notification and
session-id side effects leave the list untouched). -/
theorem submit_some_messages (s : NexusState) (raw uid1 uid2 : String) (t1 t2 : Nat)
    (nid : String) (tn : Nat) (data : ChatResp)
    (hmsg : jsTrim raw ≠ "") (hbusy : s.isLoading = false) :
    (submit s raw uid1 uid2 t1 t2 nid tn (some data)).messages
        = s.messages ++
          [{ id := uid1, role := "user", content := jsTrim raw, agent := "NEXUS",
             timestamp := t1 },
           { id := uid2, role := "assistant", content := data.response, agent := "NEXUS",
             timestamp := t2, isStreaming := some false }] := by
  simp only [submit]
  rw [if_neg (by simp [hmsg, hbusy])]
  simp only [addMessage, setLoading, setSessionId, pushNotification]
  split <;> split <;>
    simp [updateLastMessage, List.getLast?_concat, List.dropLast_concat]

/-- C4: a chat send that passes the input guard (non-empty trimmed text,
store not busy) and whose network call fails leaves the message list
grown by exactly two — the user message followed by one assistant
message whose streaming flag is cleared and whose content is the fixed
offline-notice string; and for every outcome, success or failure, the
busy flag is false after the handler completes and the list grows by
exactly two.  The handler is embedded as a total function because every
failure path in the source is caught (it never throws to the caller). -/
theorem c4_send_failure (s : NexusState) (raw uid1 uid2 : String) (t1 t2 : Nat)
    (nid : String) (tn : Nat) (hmsg : jsTrim raw ≠ "") (hbusy : s.isLoading = false) :
    (submit s raw uid1 uid2 t1 t2 nid tn none).messages
        = s.messages ++
          [{ id := uid1, role := "user", content := jsTrim raw, agent := "NEXUS",
             timestamp := t1 },
           { id := uid2, role := "assistant", content := offlineNotice, agent := "NEXUS",
             timestamp := t2, isStreaming := some false }] ∧
    (∀ outcome, (submit s raw uid1 uid2 t1 t2 nid tn outcome).isLoading = false) ∧
    (∀ outcome, (submit s raw uid1 uid2 t1 t2 nid tn outcome).messages.length
        = s.messages.length + 2) := by
  refine ⟨?_, ?_, ?_⟩
  · simp [submit, hmsg, hbusy, addMessage, setLoading, updateLastMessage,
      List.getLast?_concat, List.dropLast_concat]
  · intro outcome
    cases outcome with
    | none => simp [submit, hmsg, hbusy, setLoading]
    | some data => simp [submit, hmsg, hbusy, setLoading]
  · intro outcome
    cases outcome with
    | none =>
        simp [submit, hmsg, hbusy, addMessage, setLoading, updateLastMessage,
          List.getLast?_concat, List.dropLast_concat]
    | some data =>
        rw [submit_some_messages s raw uid1 uid2 t1 t2 nid tn data hmsg hbusy]
        simp

/-- C4 witness: the failure contract at the initial state with input
"hello". -/
theorem c4_send_failure_witness :
    (submit initialState "hello" "u1" "u2" 1 2 "n1" 3 none).messages
        = initialState.messages ++
          [{ id := "u1", role := "user", content := jsTrim "hello", agent := "NEXUS",
             timestamp := 1 },
           { id := "u2", role := "assistant", content := offlineNotice, agent := "NEXUS",
             timestamp := 2, isStreaming := some false }] ∧
    (∀ outcome, (submit initialState "hello" "u1" "u2" 1 2 "n1" 3 outcome).isLoading = false) ∧
    (∀ outcome, (submit initialState "hello" "u1" "u2" 1 2 "n1" 3 outcome).messages.length
        = initialState.messages.length + 2) :=
  c4_send_failure initialState "hello" "u1" "u2" 1 2 "n1" 3 (by decide) rfl

/-! ## C5 -/

/-- The cursor never decreases while a batch is folded. -/
theorem advanceOffset_le : ∀ (b : List Update) (o : Nat), o ≤ advanceOffset o b
  | [], o => Nat.le_refl o
  | u :: b, o => by
      show o ≤ advanceOffset (max o (u.update_id + 1)) b
      exact le_trans (by omega) (advanceOffset_le b (max o (u.update_id + 1)))

/-- After folding a batch, the cursor strictly exceeds every update id
of the batch. -/
theorem mem_lt_advanceOffset : ∀ {b : List Update} {u : Update}, u ∈ b →
    ∀ o : Nat, u.update_id < advanceOffset o b
  | v :: b, u, hu, o => by
      rcases List.mem_cons.mp hu with rfl | hu
      · show u.update_id < advanceOffset (max o (u.update_id + 1)) b
        exact lt_of_lt_of_le (by omega) (advanceOffset_le b (max o (u.update_id + 1)))
      · exact mem_lt_advanceOffset hu (max o (v.update_id + 1))

/-- Folding a batch from an arbitrary start offset is the max of the
start offset and the fold from zero. -/
theorem advanceOffset_init : ∀ (b : List Update) (o : Nat),
    advanceOffset o b = max o (advanceOffset 0 b)
  | [], o => by simp [advanceOffset]
  | u :: b, o => by
      show advanceOffset (max o (u.update_id + 1)) b
          = max o (advanceOffset (max 0 (u.update_id + 1)) b)
      rw [advanceOffset_init b (max o (u.update_id + 1)),
        advanceOffset_init b (max 0 (u.update_id + 1))]
      omega

/-- The running maximum of the batch ids from an arbitrary start. -/
theorem maxUpdateId_init : ∀ (b : List Update) (o : Nat),
    b.foldl (fun a u => max a u.update_id) o = max o (maxUpdateId b)
  | [], o => by simp [maxUpdateId]
  | u :: b, o => by
      show b.foldl (fun a u => max a u.update_id) (max o u.update_id)
          = max o (b.foldl (fun a u => max a u.update_id) (max 0 u.update_id))
      rw [maxUpdateId_init b (max o u.update_id), maxUpdateId_init b (max 0 u.update_id)]
      omega

/-- On a non-empty batch, the fold from zero is exactly the maximum
update id plus one. -/
theorem advanceOffset_zero_succ : ∀ (b : List Update), b ≠ [] →
    advanceOffset 0 b = maxUpdateId b + 1
  | [], h => absurd rfl h
  | u :: b, _ => by
      rcases eq_or_ne b [] with rfl | hb
      · show advanceOffset (max 0 (u.update_id + 1)) [] = maxUpdateId [u] + 1
        show max 0 (u.update_id + 1) = max 0 u.update_id + 1
        omega
      · show advanceOffset (max 0 (u.update_id + 1)) b = maxUpdateId (u :: b) + 1
        rw [advanceOffset_init b (max 0 (u.update_id + 1)), advanceOffset_zero_succ b hb]
        show max (max 0 (u.update_id + 1)) (maxUpdateId b + 1)
            = b.foldl (fun a u => max a u.update_id) (max 0 u.update_id) + 1
        rw [maxUpdateId_init b (max 0 u.update_id)]
        omega

/-- Every member of a batch is bounded by the batch's maximum id. -/
theorem mem_le_maxUpdateId : ∀ {b : List Update} {u : Update}, u ∈ b →
    u.update_id ≤ maxUpdateId b
  | v :: b, u, hu => by
      rcases List.mem_cons.mp hu with rfl | hu
      · show u.update_id ≤ b.foldl (fun a x => max a x.update_id) (max 0 u.update_id)
        rw [maxUpdateId_init b (max 0 u.update_id)]
        omega
      · have := mem_le_maxUpdateId hu
        show u.update_id ≤ b.foldl (fun a x => max a x.update_id) (max 0 v.update_id)
        rw [maxUpdateId_init b (max 0 v.update_id)]
        omega

/-- Under the cursor contract, every id of every later batch is at least
the offset the run started from. -/
theorem validBatches_le : ∀ {bs : List (List Update)} {o : Nat}, ValidBatches o bs →
    ∀ {b : List Update}, b ∈ bs → ∀ {v : Update}, v ∈ b → o ≤ v.update_id
  | b0 :: bs, o, h, b, hb, v, hv => by
      rcases List.mem_cons.mp hb with rfl | hb
      · exact h.1 v hv
      · exact le_trans (advanceOffset_le b0 o) (validBatches_le h.2 hb hv)

/-- C5: (1) a non-empty poll batch whose ids respect the current cursor
advances the cursor to exactly the maximum observed update id plus one
(in particular ids [5, 7, 6] at cursor 0 yield cursor 8); (2) the cursor
never decreases across any poll outcome; (3) under the getUpdates cursor
contract, every update delivered by a later batch has a strictly larger
id than every update of an earlier batch, so an update already delivered
is never delivered again; (4) a poll tick only appends messages carrying
ids of its own batch. -/
theorem c5_poll_cursor :
    (∀ (st : PollState) (batch : List Update), batch ≠ [] →
        (∀ u ∈ batch, st.offset ≤ u.update_id) →
        (pollTick st (some batch)).offset = maxUpdateId batch + 1) ∧
    (∀ (st : PollState) (r : Option (List Update)), st.offset ≤ (pollTick st r).offset) ∧
    (∀ (o : Nat) (b : List Update) (bs : List (List Update)),
        ValidBatches o (b :: bs) →
        ∀ u ∈ b, ∀ b' ∈ bs, ∀ v ∈ b', u.update_id < v.update_id) ∧
    (∀ (st : PollState) (batch : List Update) (m : TgMessage),
        m ∈ (pollTick st (some batch)).messages →
        m ∈ st.messages ∨ ∃ u ∈ batch, m.id = u.update_id) := by
  refine ⟨?_, ?_, ?_, ?_⟩
  · intro st batch hne hcontract
    obtain ⟨u0, hu0⟩ := List.exists_mem_of_ne_nil batch hne
    have hoff : st.offset ≤ maxUpdateId batch :=
      le_trans (hcontract u0 hu0) (mem_le_maxUpdateId hu0)
    have hb : batch.isEmpty = false := by
      cases batch with
      | nil => exact absurd rfl hne
      | cons x xs => rfl
    simp only [pollTick, hb, Bool.false_eq_true, if_false]
    rw [advanceOffset_init batch st.offset, advanceOffset_zero_succ batch hne]
    omega
  · intro st r
    match r with
    | none => exact Nat.le_refl _
    | some batch =>
        simp only [pollTick]
        split
        · exact Nat.le_refl _
        · exact advanceOffset_le batch st.offset
  · intro o b bs h u hu b' hb' v hv
    exact lt_of_lt_of_le (mem_lt_advanceOffset hu o) (validBatches_le h.2 hb' hv)
  · intro st batch m hm
    simp only [pollTick] at hm
    split at hm
    · exact Or.inl hm
    · rcases List.mem_append.mp hm with hl | hr
      · exact Or.inl hl
      · right
        obtain ⟨hm', -⟩ := List.mem_filter.mp hr
        obtain ⟨u, hu, rfl⟩ := List.mem_map.mp hm'
        exact ⟨u, hu, rfl⟩

/-- C5 witness: the batch with ids [5, 7, 6] read at cursor 0 advances
the cursor to 8; the cursor is monotone on that tick; and for the valid
two-batch run [5,7,6] then [9], every later id strictly exceeds every
earlier id. -/
theorem c5_poll_cursor_witness :
    (pollTick ⟨0, []⟩ (some exBatch)).offset = maxUpdateId exBatch + 1 ∧
    (0 : Nat) ≤ (pollTick ⟨0, []⟩ (some exBatch)).offset ∧
    (∀ u ∈ exBatch, ∀ b' ∈ [exBatch2], ∀ v ∈ b', u.update_id < v.update_id) ∧
    maxUpdateId exBatch + 1 = 8 :=
  ⟨c5_poll_cursor.1 ⟨0, []⟩ exBatch (by decide) (by decide),
   c5_poll_cursor.2.1 ⟨0, []⟩ (some exBatch),
   c5_poll_cursor.2.2.1 0 exBatch [exBatch2] ⟨by decide, by decide, trivial⟩,
   by decide⟩

end Nexus

